import Mathlib

/-
Shallow embedding of jasmin's SMPP client configuration layer
(src/protocols/smpp/configs.py): the key translation map `SMPPClientConfigMap`,
the validating constructor `SMPPClientConfig.__init__` (embedded as `build`),
and the service bootstrap loader `SMPPClientServiceConfig.__init__`
(embedded as `loadServiceConfig`).

Python runtime values relevant to this module are embedded as `PyVal`.
Python's `isinstance` semantics are preserved: `bool` is a subclass of `int`,
so a boolean passes both the `int` and the `int or float` checks.
Opaque protocol enumeration values from the vendored PDU library
(AddrTon, AddrNpi, EsmClass, ...) are embedded as tagged opaque objects.
-/

namespace JasminSMPP

/-- Embedding of the Python runtime values this module manipulates: strings,
integers, booleans, floats (only their identity matters here, so an integral
payload suffices for the values the module compares), None, and opaque
protocol objects identified by a tag. -/
inductive PyVal where
  | str (s : String)
  | int (n : Int)
  | bool (b : Bool)
  | float (m : Int)
  | none
  | obj (tag : String)
deriving DecidableEq

/-- Python equality test between embedded values: numeric kinds compare by
numeric value (True == 1, 1.0 == 1), everything else compares within its own
kind; None equals only None. -/
def pyEq : PyVal → PyVal → Bool
  | PyVal.str a, PyVal.str b => a == b
  | PyVal.int a, PyVal.int b => a == b
  | PyVal.int a, PyVal.bool b => a == (if b then 1 else 0)
  | PyVal.int a, PyVal.float b => a == b
  | PyVal.bool a, PyVal.bool b => a == b
  | PyVal.bool a, PyVal.int b => (if a then (1 : Int) else 0) == b
  | PyVal.bool a, PyVal.float b => (if a then (1 : Int) else 0) == b
  | PyVal.float a, PyVal.float b => a == b
  | PyVal.float a, PyVal.int b => a == b
  | PyVal.float a, PyVal.bool b => a == (if b then 1 else 0)
  | PyVal.none, PyVal.none => true
  | PyVal.obj a, PyVal.obj b => a == b
  | _, _ => false

/-- Python's str() conversion for the embedded values. -/
def pyStr : PyVal → String
  | PyVal.str s => s
  | PyVal.int n => toString n
  | PyVal.bool b => if b then "True" else "False"
  | PyVal.float m => toString m ++ ".0"
  | PyVal.none => "None"
  | PyVal.obj tag => tag

/-- Python isinstance(v, str). -/
def isStr : PyVal → Bool
  | PyVal.str _ => true
  | _ => false

/-- Python isinstance(v, int): booleans are instances of int. -/
def isInt : PyVal → Bool
  | PyVal.int _ => true
  | PyVal.bool _ => true
  | _ => false

/-- Python isinstance(v, int) or isinstance(v, float): booleans included. -/
def isNum : PyVal → Bool
  | PyVal.int _ => true
  | PyVal.bool _ => true
  | PyVal.float _ => true
  | _ => false

/-- Python membership test (v in list), using Python equality. -/
def pyMem (v : PyVal) : List PyVal → Bool
  | [] => false
  | w :: rest => pyEq v w || pyMem v rest

/-- Association-list lookup embedding the kwargs dict (keys are unique in a
Python dict, so first match is the match). -/
def alookup : List (String × PyVal) → String → Option PyVal
  | [], _ => Option.none
  | (k, v) :: rest, key => if k == key then some v else alookup rest key

/-- Embedding of kwargs.get(key, default). -/
def pyGet (kw : List (String × PyVal)) (key : String) (dflt : PyVal) : PyVal :=
  match alookup kw key with
  | some v => v
  | Option.none => dflt

/-- Whether the input mapping binds the key at all (even to None). -/
def hasKey (kw : List (String × PyVal)) (key : String) : Bool :=
  (alookup kw key).isSome

/-- Character class of the identifier pattern [A-Za-z0-9_-]. -/
def isIdChar (c : Char) : Bool :=
  ('A' ≤ c && c ≤ 'Z') || ('a' ≤ c && c ≤ 'z') || ('0' ≤ c && c ≤ '9') ||
    c == '_' || c == '-'

/-- Core of the identifier pattern: 3 to 25 characters from the class. -/
def idCoreMatch (l : List Char) : Bool :=
  decide (3 ≤ l.length) && decide (l.length ≤ 25) && l.all isIdChar

/-- Embedding of re.match with pattern ^[A-Za-z0-9_-]\x7b3,25\x7d$ : in Python
the dollar anchor also matches just before a single trailing newline. -/
def idMatch (s : String) : Bool :=
  idCoreMatch s.toList ||
    (match s.toList.getLast? with
     | some c => c == '\n' && idCoreMatch s.toList.dropLast
     | Option.none => false)

/-- The record produced by a successful SMPPClientConfig.__init__, one field
per attribute assigned by the source, in source order. -/
structure SMPPClientConfig where
  id : String
  host : PyVal
  port : PyVal
  username : PyVal
  password : PyVal
  systemType : PyVal
  log_file : PyVal
  log_level : PyVal
  log_format : PyVal
  log_date_format : PyVal
  sessionInitTimerSecs : PyVal
  enquireLinkTimerSecs : PyVal
  inactivityTimerSecs : PyVal
  responseTimerSecs : PyVal
  reconnectOnConnectionLoss : PyVal
  reconnectOnConnectionFailure : PyVal
  reconnectOnConnectionLossDelay : PyVal
  reconnectOnConnectionFailureDelay : PyVal
  pduReadTimerSecs : PyVal
  useSSL : PyVal
  SSLCertificateFile : PyVal
  bindOperation : PyVal
  service_type : PyVal
  bind_addr_ton : PyVal
  bind_addr_npi : PyVal
  source_addr_ton : PyVal
  source_addr_npi : PyVal
  dest_addr_ton : PyVal
  dest_addr_npi : PyVal
  address_range : PyVal
  source_addr : PyVal
  esm_class : PyVal
  protocol_id : PyVal
  priority_flag : PyVal
  schedule_delivery_time : PyVal
  validity_period : PyVal
  registered_delivery : PyVal
  replace_if_present_flag : PyVal
  sm_default_msg_id : PyVal
  data_coding : PyVal
  addressTon : PyVal
  addressNpi : PyVal
  addressRange : PyVal
  requeue_delay : PyVal
  submit_sm_throughput : PyVal
  dlr_expiry : PyVal

/-- The four exception classes raised by the source: ConfigUndefinedIdError
(the MissingIdentifier kind), ConfigInvalidIdError (InvalidIdentifierSyntax),
TypeMismatch, and UnknownValue (the InvalidValue kind), each carrying its
message string. -/
inductive BuildError where
  | configUndefinedId (msg : String)
  | configInvalidId (msg : String)
  | typeMismatch (msg : String)
  | unknownValue (msg : String)
deriving DecidableEq

/-- Allow-list for bindOperation, as listed in the source. -/
def bindOpAllow : List PyVal :=
  [PyVal.str "transceiver", PyVal.str "transmitter", PyVal.str "receiver"]

/-- Allow-list for data_coding, as listed in the source. -/
def dataCodingAllow : List PyVal :=
  [PyVal.int 0, PyVal.int 1, PyVal.int 2, PyVal.int 3, PyVal.int 4,
   PyVal.int 5, PyVal.int 6, PyVal.int 7, PyVal.int 8, PyVal.int 9,
   PyVal.int 10, PyVal.int 13, PyVal.int 14]

/-- The assembly of the final record: every attribute slot holds the value of
its kwargs.get expression from the source (with the source's default), and the
three compatibility aliases hold copies of their canonical fields. -/
def assemble (kw : List (String × PyVal)) : SMPPClientConfig :=
  { id := pyStr (pyGet kw "id" PyVal.none)
    host := pyGet kw "host" (PyVal.str "127.0.0.1")
    port := pyGet kw "port" (PyVal.int 2775)
    username := pyGet kw "username" (PyVal.str "smppclient")
    password := pyGet kw "password" (PyVal.str "password")
    systemType := pyGet kw "systemType" (PyVal.str "")
    log_file := pyGet kw "log_file"
      (PyVal.str ("/var/log/jasmin/default-" ++ pyStr (pyGet kw "id" PyVal.none) ++ ".log"))
    log_level := pyGet kw "log_level" (PyVal.int 20)
    log_format := pyGet kw "log_format" (PyVal.str "%(asctime)s %(levelname)-8s %(process)d %(message)s")
    log_date_format := pyGet kw "log_dateformat" (PyVal.str "%Y-%m-%d %H:%M:%S")
    sessionInitTimerSecs := pyGet kw "sessionInitTimerSecs" (PyVal.int 30)
    enquireLinkTimerSecs := pyGet kw "enquireLinkTimerSecs" (PyVal.int 10)
    inactivityTimerSecs := pyGet kw "inactivityTimerSecs" (PyVal.int 300)
    responseTimerSecs := pyGet kw "responseTimerSecs" (PyVal.int 60)
    reconnectOnConnectionLoss := pyGet kw "reconnectOnConnectionLoss" (PyVal.bool true)
    reconnectOnConnectionFailure := pyGet kw "reconnectOnConnectionFailure" (PyVal.bool true)
    reconnectOnConnectionLossDelay := pyGet kw "reconnectOnConnectionLossDelay" (PyVal.int 10)
    reconnectOnConnectionFailureDelay := pyGet kw "reconnectOnConnectionFailureDelay" (PyVal.int 10)
    pduReadTimerSecs := pyGet kw "pduReadTimerSecs" (PyVal.int 10)
    useSSL := pyGet kw "useSSL" (PyVal.bool false)
    SSLCertificateFile := pyGet kw "SSLCertificateFile" PyVal.none
    bindOperation := pyGet kw "bindOperation" (PyVal.str "transceiver")
    service_type := pyGet kw "service_type" PyVal.none
    bind_addr_ton := pyGet kw "bind_addr_ton" (PyVal.obj "AddrTon.UNKNOWN")
    bind_addr_npi := pyGet kw "bind_addr_npi" (PyVal.obj "AddrNpi.ISDN")
    source_addr_ton := pyGet kw "source_addr_ton" (PyVal.obj "AddrTon.NATIONAL")
    source_addr_npi := pyGet kw "source_addr_npi" (PyVal.obj "AddrNpi.ISDN")
    dest_addr_ton := pyGet kw "dest_addr_ton" (PyVal.obj "AddrTon.INTERNATIONAL")
    dest_addr_npi := pyGet kw "dest_addr_npi" (PyVal.obj "AddrNpi.ISDN")
    address_range := pyGet kw "address_range" PyVal.none
    source_addr := pyGet kw "source_addr" PyVal.none
    esm_class := pyGet kw "esm_class"
      (PyVal.obj "EsmClass(EsmClassMode.STORE_AND_FORWARD, EsmClassType.DEFAULT)")
    protocol_id := pyGet kw "protocol_id" PyVal.none
    priority_flag := pyGet kw "priority_flag" (PyVal.obj "PriorityFlag.LEVEL_0")
    schedule_delivery_time := pyGet kw "schedule_delivery_time" PyVal.none
    validity_period := pyGet kw "validity_period" PyVal.none
    registered_delivery := pyGet kw "registered_delivery"
      (PyVal.obj "RegisteredDelivery(RegisteredDeliveryReceipt.NO_SMSC_DELIVERY_RECEIPT_REQUESTED)")
    replace_if_present_flag := pyGet kw "replace_if_present_flag"
      (PyVal.obj "ReplaceIfPresentFlag.DO_NOT_REPLACE")
    sm_default_msg_id := pyGet kw "sm_default_msg_id" (PyVal.int 0)
    data_coding := pyGet kw "data_coding" (PyVal.int 0)
    addressTon := pyGet kw "bind_addr_ton" (PyVal.obj "AddrTon.UNKNOWN")
    addressNpi := pyGet kw "bind_addr_npi" (PyVal.obj "AddrNpi.ISDN")
    addressRange := pyGet kw "address_range" PyVal.none
    requeue_delay := pyGet kw "requeue_delay" (PyVal.int 120)
    submit_sm_throughput := pyGet kw "submit_sm_throughput" (PyVal.int 1)
    dlr_expiry := pyGet kw "dlr_expiry" (PyVal.int 86400) }

/-- Embedding of SMPPClientConfig.__init__(**kwargs): the raise statements in
source order, each becoming an error result that aborts the construction; when
every check passes, the assembled record is returned. -/
def build (kw : List (String × PyVal)) : Except BuildError SMPPClientConfig :=
  if pyEq (pyGet kw "id" PyVal.none) PyVal.none then
    Except.error (BuildError.configUndefinedId "SMPPClientConfig must have an id")
  else if !(idMatch (pyStr (pyGet kw "id" PyVal.none))) then
    Except.error (BuildError.configInvalidId "SMPPClientConfig id syntax is invalid")
  else if !(isStr (pyGet kw "host" (PyVal.str "127.0.0.1"))) then
    Except.error (BuildError.typeMismatch "host must be a string")
  else if !(isInt (pyGet kw "port" (PyVal.int 2775))) then
    Except.error (BuildError.typeMismatch "port must be an integer")
  else if !(isNum (pyGet kw "sessionInitTimerSecs" (PyVal.int 30))) then
    Except.error (BuildError.typeMismatch "sessionInitTimerSecs must be an integer or float")
  else if !(isNum (pyGet kw "enquireLinkTimerSecs" (PyVal.int 10))) then
    Except.error (BuildError.typeMismatch "enquireLinkTimerSecs must be an integer or float")
  else if !(isNum (pyGet kw "inactivityTimerSecs" (PyVal.int 300))) then
    Except.error (BuildError.typeMismatch "inactivityTimerSecs must be an integer or float")
  else if !(isNum (pyGet kw "responseTimerSecs" (PyVal.int 60))) then
    Except.error (BuildError.typeMismatch "responseTimerSecs must be an integer or float")
  else if !(isNum (pyGet kw "reconnectOnConnectionLossDelay" (PyVal.int 10))) then
    Except.error (BuildError.typeMismatch "reconnectOnConnectionLossDelay must be an integer or float")
  else if !(isNum (pyGet kw "reconnectOnConnectionFailureDelay" (PyVal.int 10))) then
    Except.error (BuildError.typeMismatch "reconnectOnConnectionFailureDelay must be an integer or float")
  else if !(isNum (pyGet kw "pduReadTimerSecs" (PyVal.int 10))) then
    Except.error (BuildError.typeMismatch "pduReadTimerSecs must be an integer or float")
  else if !(pyMem (pyGet kw "bindOperation" (PyVal.str "transceiver")) bindOpAllow) then
    Except.error (BuildError.unknownValue
      ("Invalid bindOperation: " ++ pyStr (pyGet kw "bindOperation" (PyVal.str "transceiver"))))
  else if !(pyMem (pyGet kw "data_coding" (PyVal.int 0)) dataCodingAllow) then
    Except.error (BuildError.unknownValue
      ("Invalid data_coding: " ++ pyStr (pyGet kw "data_coding" (PyVal.int 0))))
  else if !(isNum (pyGet kw "requeue_delay" (PyVal.int 120))) then
    Except.error (BuildError.typeMismatch "requeue_delay must be an integer or float")
  else if !(isNum (pyGet kw "submit_sm_throughput" (PyVal.int 1))) then
    Except.error (BuildError.typeMismatch "submit_sm_throughput must be an integer or float")
  else if !(isNum (pyGet kw "dlr_expiry" (PyVal.int 86400))) then
    Except.error (BuildError.typeMismatch "dlr_expiry must be an integer or float")
  else
    Except.ok (assemble kw)

/-- True when the build succeeds. -/
def buildOk (kw : List (String × PyVal)) : Bool :=
  match build kw with
  | Except.ok _ => true
  | Except.error _ => false

/-- The record a successful build yields when only the identifier is supplied:
every other field carries its documented default. -/
def builtDefault (i : String) : SMPPClientConfig :=
  { id := i
    host := PyVal.str "127.0.0.1"
    port := PyVal.int 2775
    username := PyVal.str "smppclient"
    password := PyVal.str "password"
    systemType := PyVal.str ""
    log_file := PyVal.str ("/var/log/jasmin/default-" ++ i ++ ".log")
    log_level := PyVal.int 20
    log_format := PyVal.str "%(asctime)s %(levelname)-8s %(process)d %(message)s"
    log_date_format := PyVal.str "%Y-%m-%d %H:%M:%S"
    sessionInitTimerSecs := PyVal.int 30
    enquireLinkTimerSecs := PyVal.int 10
    inactivityTimerSecs := PyVal.int 300
    responseTimerSecs := PyVal.int 60
    reconnectOnConnectionLoss := PyVal.bool true
    reconnectOnConnectionFailure := PyVal.bool true
    reconnectOnConnectionLossDelay := PyVal.int 10
    reconnectOnConnectionFailureDelay := PyVal.int 10
    pduReadTimerSecs := PyVal.int 10
    useSSL := PyVal.bool false
    SSLCertificateFile := PyVal.none
    bindOperation := PyVal.str "transceiver"
    service_type := PyVal.none
    bind_addr_ton := PyVal.obj "AddrTon.UNKNOWN"
    bind_addr_npi := PyVal.obj "AddrNpi.ISDN"
    source_addr_ton := PyVal.obj "AddrTon.NATIONAL"
    source_addr_npi := PyVal.obj "AddrNpi.ISDN"
    dest_addr_ton := PyVal.obj "AddrTon.INTERNATIONAL"
    dest_addr_npi := PyVal.obj "AddrNpi.ISDN"
    address_range := PyVal.none
    source_addr := PyVal.none
    esm_class := PyVal.obj "EsmClass(EsmClassMode.STORE_AND_FORWARD, EsmClassType.DEFAULT)"
    protocol_id := PyVal.none
    priority_flag := PyVal.obj "PriorityFlag.LEVEL_0"
    schedule_delivery_time := PyVal.none
    validity_period := PyVal.none
    registered_delivery := PyVal.obj "RegisteredDelivery(RegisteredDeliveryReceipt.NO_SMSC_DELIVERY_RECEIPT_REQUESTED)"
    replace_if_present_flag := PyVal.obj "ReplaceIfPresentFlag.DO_NOT_REPLACE"
    sm_default_msg_id := PyVal.int 0
    data_coding := PyVal.int 0
    addressTon := PyVal.obj "AddrTon.UNKNOWN"
    addressNpi := PyVal.obj "AddrNpi.ISDN"
    addressRange := PyVal.none
    requeue_delay := PyVal.int 120
    submit_sm_throughput := PyVal.int 1
    dlr_expiry := PyVal.int 86400 }

/-- A concrete expected record used when exercising the alias mirroring on a
build with explicitly supplied bind_addr_ton and address_range. -/
def aliasWitnessConfig : SMPPClientConfig :=
  { builtDefault "abc" with
    bind_addr_ton := PyVal.obj "AddrTon.NATIONAL"
    addressTon := PyVal.obj "AddrTon.NATIONAL"
    address_range := PyVal.str "99"
    addressRange := PyVal.str "99" }

/-- The user-configuration to SMPPClientConfig key map, pairs in source order. -/
def SMPPClientConfigMap : List (String × String) :=
  [("cid", "id"), ("host", "host"), ("port", "port"), ("username", "username"),
   ("password", "password"), ("systype", "systemType"), ("logfile", "log_file"),
   ("loglevel", "log_level"), ("bind_to", "sessionInitTimerSecs"),
   ("elink_interval", "enquireLinkTimerSecs"), ("trx_to", "inactivityTimerSecs"),
   ("res_to", "responseTimerSecs"), ("con_loss_retry", "reconnectOnConnectionLoss"),
   ("con_fail_retry", "reconnectOnConnectionFailure"),
   ("con_loss_delay", "reconnectOnConnectionLossDelay"),
   ("con_fail_delay", "reconnectOnConnectionFailureDelay"),
   ("pdu_red_to", "pduReadTimerSecs"), ("bind", "bindOperation"),
   ("bind_ton", "bind_addr_ton"), ("bind_npi", "bind_addr_npi"),
   ("src_ton", "source_addr_ton"), ("src_npi", "source_addr_npi"),
   ("dst_ton", "dest_addr_ton"), ("dst_npi", "dest_addr_npi"),
   ("addr_range", "address_range"), ("src_addr", "source_addr"),
   ("esm_class", "esm_class"), ("proto_id", "protocol_id"),
   ("priority", "priority_flag"), ("validity", "validity_period"),
   ("dlr", "registered_delivery"), ("ripf", "replace_if_present_flag"),
   ("def_msg_id", "sm_default_msg_id"), ("coding", "data_coding"),
   ("requeue_delay", "requeue_delay"), ("submit_throughput", "submit_sm_throughput"),
   ("dlr_expiry", "dlr_expiry")]

/-- Lookup in a string-to-string association list. -/
def slookup : List (String × String) → String → Option String
  | [], _ => Option.none
  | (a, b) :: rest, k => if a == k then some b else slookup rest k

/-- The key translation operation over the map: the internal key when the
external key is registered, none (key not recognized) otherwise. -/
def translate (k : String) : Option String :=
  slookup SMPPClientConfigMap k

/-- The record produced by SMPPClientServiceConfig.__init__. -/
structure SMPPClientServiceConfig where
  log_level : PyVal
  log_file : String
  log_format : String
  log_date_format : String

/-- Modelled from the spec: ConfigFile._get (jasmin.config.tools, not under
src/) reads one key from the file-backed section/key store, substituting the
given literal default when the section/key pair is absent. The store is
embedded as an association list keyed by (section, option). -/
def cfGet : List ((String × String) × String) → String → String → String → String
  | [], _, _, dflt => dflt
  | (sk, v) :: rest, sec, opt, dflt =>
      if sk.1 == sec && sk.2 == opt then v else cfGet rest sec opt dflt

/-- Modelled from the spec: the severity-name parser (logging.getLevelName,
not under src/) maps a human-readable level name to its numeric severity;
an unrecognized name surfaces the parser's own non-numeric result, opaque to
this core. -/
def getLevelName (levelName : String) : PyVal :=
  if levelName == "CRITICAL" then PyVal.int 50
  else if levelName == "ERROR" then PyVal.int 40
  else if levelName == "WARNING" then PyVal.int 30
  else if levelName == "INFO" then PyVal.int 20
  else if levelName == "DEBUG" then PyVal.int 10
  else if levelName == "NOTSET" then PyVal.int 0
  else PyVal.str ("Level " ++ levelName)

/-- Embedding of SMPPClientServiceConfig.__init__: the four reads in source
order, with the source's section names, keys and literal defaults. -/
def loadServiceConfig (store : List ((String × String) × String)) :
    SMPPClientServiceConfig :=
  { log_level := getLevelName (cfGet store "service-smppclient" "log_level" "INFO")
    log_file := cfGet store "services-smppclient" "log_file" "/var/log/jasmin/service-smppclient.log"
    log_format := cfGet store "services-smppclient" "log_format" "%(asctime)s %(levelname)-8s %(process)d %(message)s"
    log_date_format := cfGet store "services-smppclient" "log_date_format" "%Y-%m-%d %H:%M:%S" }

/-- Peeling lemma: a failed check cannot have produced a success, so a
successful result came from the else branch. -/
theorem ite_ok_peel {c : Prop} [Decidable c] {e : BuildError}
    {r : Except BuildError SMPPClientConfig} {cfg : SMPPClientConfig}
    (h : (if c then Except.error e else r) = Except.ok cfg) : r = Except.ok cfg := by
  by_cases hc : c
  · rw [if_pos hc] at h
    exact (Except.noConfusion h)
  · rwa [if_neg hc] at h

/-- A successful build returns exactly the assembled record. -/
theorem build_ok_eq (kw : List (String × PyVal)) (cfg : SMPPClientConfig)
    (h : build kw = Except.ok cfg) : cfg = assemble kw := by
  rw [build] at h
  replace h := ite_ok_peel h
  replace h := ite_ok_peel h
  replace h := ite_ok_peel h
  replace h := ite_ok_peel h
  replace h := ite_ok_peel h
  replace h := ite_ok_peel h
  replace h := ite_ok_peel h
  replace h := ite_ok_peel h
  replace h := ite_ok_peel h
  replace h := ite_ok_peel h
  replace h := ite_ok_peel h
  replace h := ite_ok_peel h
  replace h := ite_ok_peel h
  replace h := ite_ok_peel h
  replace h := ite_ok_peel h
  replace h := ite_ok_peel h
  injection h with h
  exact h.symm

/-- A key the mapping does not bind is looked up as its default. -/
theorem pyGet_absent (kw : List (String × PyVal)) (key : String) (d : PyVal)
    (h : hasKey kw key = false) : pyGet kw key d = d := by
  unfold pyGet
  cases e : alookup kw key with
  | none => rfl
  | some v => simp [hasKey, e] at h

/-- A key the mapping binds is looked up as its bound value. -/
theorem pyGet_present (kw : List (String × PyVal)) (key : String) (d v : PyVal)
    (h : alookup kw key = some v) : pyGet kw key d = v := by
  simp [pyGet, h]

/-- Claim C1: for every input mapping, an absent id key (or one bound to
None) makes the build fail with the missing-identifier error, and a present
id whose text form fails the identifier pattern makes it fail with the
invalid-identifier-syntax error, in both cases regardless of every other
field, since the identifier gate runs first. -/
theorem identifier_gate_first (kw : List (String × PyVal)) :
    (pyGet kw "id" PyVal.none = PyVal.none →
      build kw = Except.error
        (BuildError.configUndefinedId "SMPPClientConfig must have an id")) ∧
    (pyEq (pyGet kw "id" PyVal.none) PyVal.none = false →
      idMatch (pyStr (pyGet kw "id" PyVal.none)) = false →
      build kw = Except.error
        (BuildError.configInvalidId "SMPPClientConfig id syntax is invalid")) := by
  constructor
  · intro h
    rw [build, h]
    exact if_pos rfl
  · intro h1 h2
    rw [build]
    rw [if_neg (by simp [h1])]
    exact if_pos (by simp [h2])

/-- Witness for C1: an input with no id and a malformed port yields the
missing-identifier error, and an input with the too-short id "ab" and a
malformed port yields the invalid-syntax error. -/
theorem identifier_gate_first_witness :
    build [("port", PyVal.str "x"), ("data_coding", PyVal.int 99)] = Except.error
      (BuildError.configUndefinedId "SMPPClientConfig must have an id") ∧
    build [("id", PyVal.str "ab"), ("port", PyVal.str "x")] = Except.error
      (BuildError.configInvalidId "SMPPClientConfig id syntax is invalid") :=
  ⟨(identifier_gate_first [("port", PyVal.str "x"), ("data_coding", PyVal.int 99)]).1 rfl,
   (identifier_gate_first [("id", PyVal.str "ab"), ("port", PyVal.str "x")]).2 rfl rfl⟩

/-- Claim C4: every identifier of 3 to 25 characters drawn from
[A-Za-z0-9_-], supplied alone, builds successfully, and the result is the
fully defaulted record (so every defaulted field passes its checks). -/
theorem valid_id_default_build (s : String)
    (h1 : 3 ≤ s.toList.length) (h2 : s.toList.length ≤ 25)
    (h3 : s.toList.all isIdChar = true) :
    build [("id", PyVal.str s)] = Except.ok (builtDefault s) := by
  have hm : idMatch s = true := by
    have hc : idCoreMatch s.toList = true := by
      unfold idCoreMatch
      rw [h3]
      simp only [decide_eq_true_eq, Bool.and_true, Bool.and_eq_true]
      exact ⟨by simpa using h1, by simpa using h2⟩
    unfold idMatch
    rw [hc]
    simp
  have e : build [("id", PyVal.str s)] =
      (if !(idMatch (pyStr (PyVal.str s))) then
        Except.error (BuildError.configInvalidId "SMPPClientConfig id syntax is invalid")
      else Except.ok (builtDefault s)) := rfl
  rw [e]
  simp [pyStr, hm]

/-- Witness for C4 at the identifier "gw-1_x". -/
theorem valid_id_default_build_witness :
    build [("id", PyVal.str "gw-1_x")] = Except.ok (builtDefault "gw-1_x") :=
  valid_id_default_build "gw-1_x" (by decide) (by decide) (by decide)

/-- Claim C10: an id explicitly bound to None is treated exactly like an
absent id and fails with the missing-identifier error, while a non-string id
(here an integer) whose text form matches the pattern is accepted, the stored
id being that text form. -/
theorem none_id_and_numeric_id (kw : List (String × PyVal)) (n : Int)
    (h1 : alookup kw "id" = some PyVal.none)
    (h2 : idMatch (pyStr (PyVal.int n)) = true) :
    build kw = Except.error
      (BuildError.configUndefinedId "SMPPClientConfig must have an id") ∧
    build [("id", PyVal.int n)] = Except.ok (builtDefault (pyStr (PyVal.int n))) ∧
    (builtDefault (pyStr (PyVal.int n))).id = pyStr (PyVal.int n) := by
  refine ⟨?_, ?_, rfl⟩
  · have hg : pyGet kw "id" PyVal.none = PyVal.none := by simp [pyGet, h1]
    rw [build, hg]
    exact if_pos rfl
  · have e : build [("id", PyVal.int n)] =
        (if !(idMatch (pyStr (PyVal.int n))) then
          Except.error (BuildError.configInvalidId "SMPPClientConfig id syntax is invalid")
        else Except.ok (builtDefault (pyStr (PyVal.int n)))) := rfl
    rw [e, h2]
    simp

/-- Witness for C10: id bound to None fails as missing; the integer id 12345
is accepted and stored as the string "12345". -/
theorem none_id_and_numeric_id_witness :
    build [("id", PyVal.none)] = Except.error
      (BuildError.configUndefinedId "SMPPClientConfig must have an id") ∧
    build [("id", PyVal.int 12345)] = Except.ok (builtDefault "12345") ∧
    (builtDefault "12345").id = "12345" :=
  none_id_and_numeric_id [("id", PyVal.none)] 12345 rfl rfl

/-- Claim C5: in every successful build, each field absent from the input
gets its own documented default: host 127.0.0.1, port 2775, data_coding 0
(a real coding-scheme value), requeue_delay 120, submit_sm_throughput 1 and
dlr_expiry 86400, each conditional only on that one field being absent. -/
theorem absent_field_defaults (kw : List (String × PyVal)) (cfg : SMPPClientConfig)
    (h : build kw = Except.ok cfg) :
    (hasKey kw "host" = false → cfg.host = PyVal.str "127.0.0.1") ∧
    (hasKey kw "port" = false → cfg.port = PyVal.int 2775) ∧
    (hasKey kw "data_coding" = false → cfg.data_coding = PyVal.int 0) ∧
    (hasKey kw "requeue_delay" = false → cfg.requeue_delay = PyVal.int 120) ∧
    (hasKey kw "submit_sm_throughput" = false → cfg.submit_sm_throughput = PyVal.int 1) ∧
    (hasKey kw "dlr_expiry" = false → cfg.dlr_expiry = PyVal.int 86400) := by
  rw [build_ok_eq kw cfg h]
  exact ⟨fun ha => pyGet_absent kw "host" _ ha,
    fun ha => pyGet_absent kw "port" _ ha,
    fun ha => pyGet_absent kw "data_coding" _ ha,
    fun ha => pyGet_absent kw "requeue_delay" _ ha,
    fun ha => pyGet_absent kw "submit_sm_throughput" _ ha,
    fun ha => pyGet_absent kw "dlr_expiry" _ ha⟩

/-- Witness for C5: a build that supplies port but omits host (and the
other defaulted fields) still gets the documented default for each absent
field, while the supplied port is kept. -/
theorem absent_field_defaults_witness :
    build [("id", PyVal.str "abc"), ("port", PyVal.int 9999)] =
      Except.ok { builtDefault "abc" with port := PyVal.int 9999 } ∧
    (({ builtDefault "abc" with port := PyVal.int 9999 } : SMPPClientConfig).host =
        PyVal.str "127.0.0.1" ∧
     ({ builtDefault "abc" with port := PyVal.int 9999 } : SMPPClientConfig).data_coding =
        PyVal.int 0 ∧
     ({ builtDefault "abc" with port := PyVal.int 9999 } : SMPPClientConfig).requeue_delay =
        PyVal.int 120 ∧
     ({ builtDefault "abc" with port := PyVal.int 9999 } : SMPPClientConfig).submit_sm_throughput =
        PyVal.int 1 ∧
     ({ builtDefault "abc" with port := PyVal.int 9999 } : SMPPClientConfig).dlr_expiry =
        PyVal.int 86400) := by
  have h := absent_field_defaults [("id", PyVal.str "abc"), ("port", PyVal.int 9999)]
    { builtDefault "abc" with port := PyVal.int 9999 } rfl
  exact ⟨rfl, h.1 rfl, h.2.2.1 rfl, h.2.2.2.1 rfl, h.2.2.2.2.1 rfl, h.2.2.2.2.2 rfl⟩

/-- Claim C6: in every successful build, when no explicit log_file was
supplied the log file is the derived default path with the validated
identifier substituted, and when an explicit log_file was supplied it is
stored verbatim. -/
theorem log_file_derivation (kw : List (String × PyVal)) (cfg : SMPPClientConfig)
    (h : build kw = Except.ok cfg) :
    (hasKey kw "log_file" = false →
      cfg.log_file = PyVal.str ("/var/log/jasmin/default-" ++ cfg.id ++ ".log")) ∧
    (∀ v, alookup kw "log_file" = some v → cfg.log_file = v) := by
  rw [build_ok_eq kw cfg h]
  constructor
  · intro ha
    exact pyGet_absent kw "log_file" _ ha
  · intro v hv
    exact pyGet_present kw "log_file" _ v hv

/-- Witness for C6: id gw1 with no log_file yields the derived path, and an
explicit log_file is stored verbatim. -/
theorem log_file_derivation_witness :
    build [("id", PyVal.str "gw1")] = Except.ok (builtDefault "gw1") ∧
    (builtDefault "gw1").log_file = PyVal.str "/var/log/jasmin/default-gw1.log" ∧
    build [("id", PyVal.str "gw1"), ("log_file", PyVal.str "/tmp/x.log")] =
      Except.ok { builtDefault "gw1" with log_file := PyVal.str "/tmp/x.log" } ∧
    ({ builtDefault "gw1" with log_file := PyVal.str "/tmp/x.log" } :
        SMPPClientConfig).log_file = PyVal.str "/tmp/x.log" := by
  refine ⟨rfl, ?_, rfl, ?_⟩
  · exact ((log_file_derivation [("id", PyVal.str "gw1")] (builtDefault "gw1") rfl).1
      rfl).trans rfl
  · exact (log_file_derivation [("id", PyVal.str "gw1"), ("log_file", PyVal.str "/tmp/x.log")]
      { builtDefault "gw1" with log_file := PyVal.str "/tmp/x.log" } rfl).2
      (PyVal.str "/tmp/x.log") rfl

/-- Claim C7: in every successfully built configuration the compatibility
aliases addressTon, addressNpi and addressRange equal the canonical fields
bind_addr_ton, bind_addr_npi and address_range. -/
theorem alias_mirroring (kw : List (String × PyVal)) (cfg : SMPPClientConfig)
    (h : build kw = Except.ok cfg) :
    cfg.addressTon = cfg.bind_addr_ton ∧ cfg.addressNpi = cfg.bind_addr_npi ∧
    cfg.addressRange = cfg.address_range := by
  rw [build_ok_eq kw cfg h]
  exact ⟨rfl, rfl, rfl⟩

/-- Witness for C7 on a build with explicitly supplied bind_addr_ton and
address_range. -/
theorem alias_mirroring_witness :
    build [("id", PyVal.str "abc"), ("bind_addr_ton", PyVal.obj "AddrTon.NATIONAL"),
      ("address_range", PyVal.str "99")] = Except.ok aliasWitnessConfig ∧
    (aliasWitnessConfig.addressTon = aliasWitnessConfig.bind_addr_ton ∧
     aliasWitnessConfig.addressNpi = aliasWitnessConfig.bind_addr_npi ∧
     aliasWitnessConfig.addressRange = aliasWitnessConfig.address_range) :=
  ⟨rfl, alias_mirroring
    [("id", PyVal.str "abc"), ("bind_addr_ton", PyVal.obj "AddrTon.NATIONAL"),
      ("address_range", PyVal.str "99")] aliasWitnessConfig rfl⟩

/-- Claim C2 counterexample: the claim says a non-text username and a
boolean port each cause a TypeMismatch failure, but this input supplies
both and the build succeeds: username carries no type check at all, and a
Python boolean is an instance of int, so it passes the port check. -/
theorem type_check_claim_counterexample :
    build [("id", PyVal.str "abc"), ("username", PyVal.int 42),
      ("port", PyVal.bool true)] =
    Except.ok { builtDefault "abc" with username := PyVal.int 42, port := PyVal.bool true } :=
  rfl

/-- Claim C2 as amended: type checking covers only host (text), port
(integer) and the ten numeric timer, delay, throughput and expiry fields
(integer-or-real); a text value supplied for port or for any checked
numeric field, or a non-text value for host, fails with TypeMismatch
naming that field. Booleans pass the integer checks (bool is a subtype of
int at runtime), and fields such as username, password and the
reconnection flags are stored without any type check. -/
theorem type_checks_amended (t : String) (n : Int) (b : Bool) (v w u : PyVal) :
    build [("id", PyVal.str "abc"), ("host", PyVal.int n)] =
      Except.error (BuildError.typeMismatch "host must be a string") ∧
    build [("id", PyVal.str "abc"), ("port", PyVal.str t)] =
      Except.error (BuildError.typeMismatch "port must be an integer") ∧
    build [("id", PyVal.str "abc"), ("sessionInitTimerSecs", PyVal.str t)] =
      Except.error (BuildError.typeMismatch "sessionInitTimerSecs must be an integer or float") ∧
    build [("id", PyVal.str "abc"), ("enquireLinkTimerSecs", PyVal.str t)] =
      Except.error (BuildError.typeMismatch "enquireLinkTimerSecs must be an integer or float") ∧
    build [("id", PyVal.str "abc"), ("inactivityTimerSecs", PyVal.str t)] =
      Except.error (BuildError.typeMismatch "inactivityTimerSecs must be an integer or float") ∧
    build [("id", PyVal.str "abc"), ("responseTimerSecs", PyVal.str t)] =
      Except.error (BuildError.typeMismatch "responseTimerSecs must be an integer or float") ∧
    build [("id", PyVal.str "abc"), ("reconnectOnConnectionLossDelay", PyVal.str t)] =
      Except.error (BuildError.typeMismatch "reconnectOnConnectionLossDelay must be an integer or float") ∧
    build [("id", PyVal.str "abc"), ("reconnectOnConnectionFailureDelay", PyVal.str t)] =
      Except.error (BuildError.typeMismatch "reconnectOnConnectionFailureDelay must be an integer or float") ∧
    build [("id", PyVal.str "abc"), ("pduReadTimerSecs", PyVal.str t)] =
      Except.error (BuildError.typeMismatch "pduReadTimerSecs must be an integer or float") ∧
    build [("id", PyVal.str "abc"), ("requeue_delay", PyVal.str t)] =
      Except.error (BuildError.typeMismatch "requeue_delay must be an integer or float") ∧
    build [("id", PyVal.str "abc"), ("submit_sm_throughput", PyVal.str t)] =
      Except.error (BuildError.typeMismatch "submit_sm_throughput must be an integer or float") ∧
    build [("id", PyVal.str "abc"), ("dlr_expiry", PyVal.str t)] =
      Except.error (BuildError.typeMismatch "dlr_expiry must be an integer or float") ∧
    build [("id", PyVal.str "abc"), ("port", PyVal.bool b)] =
      Except.ok { builtDefault "abc" with port := PyVal.bool b } ∧
    build [("id", PyVal.str "abc"), ("username", v)] =
      Except.ok { builtDefault "abc" with username := v } ∧
    build [("id", PyVal.str "abc"), ("password", w)] =
      Except.ok { builtDefault "abc" with password := w } ∧
    build [("id", PyVal.str "abc"), ("reconnectOnConnectionLoss", u)] =
      Except.ok { builtDefault "abc" with reconnectOnConnectionLoss := u } :=
  ⟨rfl, rfl, rfl, rfl, rfl, rfl, rfl, rfl, rfl, rfl, rfl, rfl, rfl, rfl, rfl, rfl⟩

/-- Claim C3: for inputs past the identifier and type gates, a
bindOperation outside the closed three-element set fails with the
UnknownValue error naming the field and the rejected value; with
bindOperation in the set, a data_coding outside the allow-list fails with
the UnknownValue error naming the field and the rejected value; values
inside the respective sets pass the domain checks. -/
theorem domain_checks (kw1 kw2 : List (String × PyVal)) (m : Int) (s : String)
    (g1 : pyEq (pyGet kw1 "id" PyVal.none) PyVal.none = false)
    (g2 : idMatch (pyStr (pyGet kw1 "id" PyVal.none)) = true)
    (t1 : isStr (pyGet kw1 "host" (PyVal.str "127.0.0.1")) = true)
    (t2 : isInt (pyGet kw1 "port" (PyVal.int 2775)) = true)
    (t3 : isNum (pyGet kw1 "sessionInitTimerSecs" (PyVal.int 30)) = true)
    (t4 : isNum (pyGet kw1 "enquireLinkTimerSecs" (PyVal.int 10)) = true)
    (t5 : isNum (pyGet kw1 "inactivityTimerSecs" (PyVal.int 300)) = true)
    (t6 : isNum (pyGet kw1 "responseTimerSecs" (PyVal.int 60)) = true)
    (t7 : isNum (pyGet kw1 "reconnectOnConnectionLossDelay" (PyVal.int 10)) = true)
    (t8 : isNum (pyGet kw1 "reconnectOnConnectionFailureDelay" (PyVal.int 10)) = true)
    (t9 : isNum (pyGet kw1 "pduReadTimerSecs" (PyVal.int 10)) = true)
    (hv : pyMem (pyGet kw1 "bindOperation" (PyVal.str "transceiver")) bindOpAllow = false)
    (q1 : pyEq (pyGet kw2 "id" PyVal.none) PyVal.none = false)
    (q2 : idMatch (pyStr (pyGet kw2 "id" PyVal.none)) = true)
    (u1 : isStr (pyGet kw2 "host" (PyVal.str "127.0.0.1")) = true)
    (u2 : isInt (pyGet kw2 "port" (PyVal.int 2775)) = true)
    (u3 : isNum (pyGet kw2 "sessionInitTimerSecs" (PyVal.int 30)) = true)
    (u4 : isNum (pyGet kw2 "enquireLinkTimerSecs" (PyVal.int 10)) = true)
    (u5 : isNum (pyGet kw2 "inactivityTimerSecs" (PyVal.int 300)) = true)
    (u6 : isNum (pyGet kw2 "responseTimerSecs" (PyVal.int 60)) = true)
    (u7 : isNum (pyGet kw2 "reconnectOnConnectionLossDelay" (PyVal.int 10)) = true)
    (u8 : isNum (pyGet kw2 "reconnectOnConnectionFailureDelay" (PyVal.int 10)) = true)
    (u9 : isNum (pyGet kw2 "pduReadTimerSecs" (PyVal.int 10)) = true)
    (hb : pyMem (pyGet kw2 "bindOperation" (PyVal.str "transceiver")) bindOpAllow = true)
    (hn : pyMem (pyGet kw2 "data_coding" (PyVal.int 0)) dataCodingAllow = false)
    (hm : pyMem (PyVal.int m) dataCodingAllow = true)
    (hs : pyMem (PyVal.str s) bindOpAllow = true) :
    build kw1 = Except.error (BuildError.unknownValue
      ("Invalid bindOperation: " ++ pyStr (pyGet kw1 "bindOperation" (PyVal.str "transceiver")))) ∧
    build kw2 = Except.error (BuildError.unknownValue
      ("Invalid data_coding: " ++ pyStr (pyGet kw2 "data_coding" (PyVal.int 0)))) ∧
    buildOk [("id", PyVal.str "abc"), ("data_coding", PyVal.int m)] = true ∧
    buildOk [("id", PyVal.str "abc"), ("bindOperation", PyVal.str s)] = true := by
  refine ⟨?_, ?_, ?_, ?_⟩
  · rw [build]
    rw [if_neg (by simp [g1]), if_neg (by simp [g2]), if_neg (by simp [t1]),
      if_neg (by simp [t2]), if_neg (by simp [t3]), if_neg (by simp [t4]),
      if_neg (by simp [t5]), if_neg (by simp [t6]), if_neg (by simp [t7]),
      if_neg (by simp [t8]), if_neg (by simp [t9])]
    exact if_pos (by simp [hv])
  · rw [build]
    rw [if_neg (by simp [q1]), if_neg (by simp [q2]), if_neg (by simp [u1]),
      if_neg (by simp [u2]), if_neg (by simp [u3]), if_neg (by simp [u4]),
      if_neg (by simp [u5]), if_neg (by simp [u6]), if_neg (by simp [u7]),
      if_neg (by simp [u8]), if_neg (by simp [u9]), if_neg (by simp [hb])]
    exact if_pos (by simp [hn])
  · have e : build [("id", PyVal.str "abc"), ("data_coding", PyVal.int m)] =
        (if !(pyMem (PyVal.int m) dataCodingAllow) then
          Except.error (BuildError.unknownValue
            ("Invalid data_coding: " ++ pyStr (PyVal.int m)))
        else Except.ok { builtDefault "abc" with data_coding := PyVal.int m }) := rfl
    unfold buildOk
    rw [e, hm]
    simp
  · have e : build [("id", PyVal.str "abc"), ("bindOperation", PyVal.str s)] =
        (if !(pyMem (PyVal.str s) bindOpAllow) then
          Except.error (BuildError.unknownValue
            ("Invalid bindOperation: " ++ pyStr (PyVal.str s)))
        else Except.ok { builtDefault "abc" with bindOperation := PyVal.str s }) := rfl
    unfold buildOk
    rw [e, hs]
    simp

/-- Witness for C3: bindOperation "sender" is rejected with its value named,
data_coding 11 is rejected with its value named, and data_coding 8 and
bindOperation "receiver" pass. -/
theorem domain_checks_witness :
    build [("id", PyVal.str "abc"), ("bindOperation", PyVal.str "sender")] =
      Except.error (BuildError.unknownValue "Invalid bindOperation: sender") ∧
    build [("id", PyVal.str "abc"), ("data_coding", PyVal.int 11)] =
      Except.error (BuildError.unknownValue "Invalid data_coding: 11") ∧
    buildOk [("id", PyVal.str "abc"), ("data_coding", PyVal.int 8)] = true ∧
    buildOk [("id", PyVal.str "abc"), ("bindOperation", PyVal.str "receiver")] = true :=
  domain_checks [("id", PyVal.str "abc"), ("bindOperation", PyVal.str "sender")]
    [("id", PyVal.str "abc"), ("data_coding", PyVal.int 11)] 8 "receiver"
    rfl rfl rfl rfl rfl rfl rfl rfl rfl rfl rfl rfl
    rfl rfl rfl rfl rfl rfl rfl rfl rfl rfl rfl rfl rfl rfl rfl

/-- A key absent from the first components of a string map is not found. -/
theorem slookup_not_registered (l : List (String × String)) (k : String)
    (h : l.any (fun p => p.1 == k) = false) : slookup l k = Option.none := by
  induction l with
  | nil => rfl
  | cons p rest ih =>
    rw [List.any_cons] at h
    obtain ⟨h1, h2⟩ := Bool.or_eq_false_iff.mp h
    obtain ⟨a, b⟩ := p
    simpa [slookup, h1] using ih h2

/-- Claim C8: the key translation table sends cid to id and elink_interval
to enquireLinkTimerSecs, and any external key not registered in the table
is reported as not recognized rather than mapped. -/
theorem key_translation (k : String)
    (hk : SMPPClientConfigMap.any (fun p => p.1 == k) = false) :
    translate "cid" = some "id" ∧
    translate "elink_interval" = some "enquireLinkTimerSecs" ∧
    translate k = Option.none :=
  ⟨rfl, rfl, slookup_not_registered SMPPClientConfigMap k hk⟩

/-- Witness for C8 at the unregistered key "foo". -/
theorem key_translation_witness :
    translate "cid" = some "id" ∧
    translate "elink_interval" = some "enquireLinkTimerSecs" ∧
    translate "foo" = Option.none :=
  key_translation "foo" rfl

/-- Claim C9: for every store, load reads exactly four keys, the severity
level name from the section service-smppclient and the log file path, line
format and date format from the section services-smppclient, each with its
literal default; the stored or defaulted level name is parsed to its
numeric severity, 20 for the default INFO. -/
theorem service_config_reads (store : List ((String × String) × String))
    (lv lf fm dm : String) :
    (loadServiceConfig store).log_level =
      getLevelName (cfGet store "service-smppclient" "log_level" "INFO") ∧
    (loadServiceConfig store).log_file =
      cfGet store "services-smppclient" "log_file" "/var/log/jasmin/service-smppclient.log" ∧
    (loadServiceConfig store).log_format =
      cfGet store "services-smppclient" "log_format" "%(asctime)s %(levelname)-8s %(process)d %(message)s" ∧
    (loadServiceConfig store).log_date_format =
      cfGet store "services-smppclient" "log_date_format" "%Y-%m-%d %H:%M:%S" ∧
    loadServiceConfig [] =
      { log_level := PyVal.int 20
        log_file := "/var/log/jasmin/service-smppclient.log"
        log_format := "%(asctime)s %(levelname)-8s %(process)d %(message)s"
        log_date_format := "%Y-%m-%d %H:%M:%S" } ∧
    loadServiceConfig
      [(("service-smppclient", "log_level"), lv),
       (("services-smppclient", "log_file"), lf),
       (("services-smppclient", "log_format"), fm),
       (("services-smppclient", "log_date_format"), dm)] =
      { log_level := getLevelName lv
        log_file := lf
        log_format := fm
        log_date_format := dm } :=
  ⟨rfl, rfl, rfl, rfl, rfl, rfl⟩

end JasminSMPP
